import Mathlib

/-!
Verification of the commit-graph file loader (`git-commitgraph/src/file/init.rs`).

The loader memory-maps a commit-graph file and validates its header, chunk
directory and chunk contents, producing a `File` value or a structured error.
We embed the parser shallowly: the byte buffer is a `List Nat` of byte values,
machine-integer casts (`usize` to `u32`) are modelled with an explicit
`% 2 ^ 32`, and fallible code returns `Except Error`.

The embedding takes the byte content of the file directly, so the `Io` error
case of the source (failure to open or map the file) does not arise here.
-/

namespace CommitGraph

/-- The byte buffer of a memory-mapped file: one `Nat` per byte. -/
abbrev Bytes := List Nat

/-- A four-byte chunk identifier, as in `type ChunkId = [u8; 4]`. -/
abbrev ChunkId := List Nat

/-- Modelled from the spec: the constant `SIGNATURE` lives in `file/mod.rs`,
which is not part of the supplied sources; spec section 4.1 fixes it to the
ASCII bytes of "CGPH". -/
def SIGNATURE : ChunkId := [0x43, 0x47, 0x50, 0x48]

/-- Modelled from the spec: `FAN_LEN` lives in `file/mod.rs`; the fan-out
table has 256 entries (one per possible first byte of a hash). -/
def FAN_LEN : Nat := 256

/-- Modelled from the spec: `COMMIT_DATA_ENTRY_SIZE` lives in `file/mod.rs`;
each commit-data record is 36 bytes (spec section 4.1, CDAT row). -/
def COMMIT_DATA_ENTRY_SIZE : Nat := 36

/-- Modelled from the spec: `SHA1_SIZE` lives in the `git-object` crate;
a hash is 20 bytes. -/
def SHA1_SIZE : Nat := 20

def CHUNK_LOOKUP_SIZE : Nat := 12

def HEADER_LEN : Nat := 8

def MIN_CHUNKS : Nat := 3

def MIN_FILE_SIZE : Nat := HEADER_LEN + (MIN_CHUNKS + 1) * CHUNK_LOOKUP_SIZE

def OID_LOOKUP_ENTRY_SIZE : Nat := SHA1_SIZE

def BASE_GRAPHS_LIST_CHUNK_ID : ChunkId := [0x42, 0x41, 0x53, 0x45]

def COMMIT_DATA_CHUNK_ID : ChunkId := [0x43, 0x44, 0x41, 0x54]

def EXTENDED_EDGES_LIST_CHUNK_ID : ChunkId := [0x45, 0x44, 0x47, 0x45]

def OID_FAN_CHUNK_ID : ChunkId := [0x4F, 0x49, 0x44, 0x46]

def OID_LOOKUP_CHUNK_ID : ChunkId := [0x4F, 0x49, 0x44, 0x4C]

def SENTINEL_CHUNK_ID : ChunkId := [0, 0, 0, 0]

/-- The error taxonomy of `file/init.rs` (the `Io` case is omitted: the
embedding starts from the byte content of an already-opened file). -/
inductive Error where
  | BaseGraphMismatch (from_header : Nat) (from_chunk : Nat)
  | CommitCountMismatch (chunk1_id : ChunkId) (chunk1_commits : Nat)
      (chunk2_id : ChunkId) (chunk2_commits : Nat)
  | Corrupt (msg : String)
  | DuplicateChunk (id : ChunkId)
  | InvalidChunkSize (id : ChunkId) (msg : String)
  | MissingChunk (id : ChunkId)
  | UnsupportedHashVersion (version : Nat)
  | UnsupportedVersion (version : Nat)
deriving DecidableEq, Repr

/-- The parsed commit-graph file (the `path` field of the source is dropped:
it does not depend on the byte content). -/
structure File where
  base_graph_count : Nat
  base_graphs_list_offset : Option Nat
  commit_data_offset : Nat
  data : Bytes
  extra_edges_list_range : Option (Nat × Nat)
  fan : List Nat
  oid_lookup_offset : Nat
deriving DecidableEq, Repr

/-- A byte read `data[i]`; out-of-range reads default to 0 (the companion
checked parser below proves the default is never used). -/
def byteAt (d : Bytes) (i : Nat) : Nat := d.getD i 0

/-- `BigEndian::read_u32(&d[ofs..ofs + 4])`. -/
def read_u32 (d : Bytes) (ofs : Nat) : Nat :=
  byteAt d ofs * 2 ^ 24 + byteAt d (ofs + 1) * 2 ^ 16 +
    byteAt d (ofs + 2) * 2 ^ 8 + byteAt d (ofs + 3)

/-- `BigEndian::read_u64(&d[ofs..ofs + 8])`. -/
def read_u64 (d : Bytes) (ofs : Nat) : Nat :=
  byteAt d ofs * 2 ^ 56 + byteAt d (ofs + 1) * 2 ^ 48 +
    byteAt d (ofs + 2) * 2 ^ 40 + byteAt d (ofs + 3) * 2 ^ 32 +
    byteAt d (ofs + 4) * 2 ^ 24 + byteAt d (ofs + 5) * 2 ^ 16 +
    byteAt d (ofs + 6) * 2 ^ 8 + byteAt d (ofs + 7)

/-- A four-byte slice read `d[ofs..ofs + 4]`, as used for chunk ids and the
signature. -/
def read_chunk_id (d : Bytes) (ofs : Nat) : ChunkId :=
  [byteAt d ofs, byteAt d (ofs + 1), byteAt d (ofs + 2), byteAt d (ofs + 3)]

/-- `read_fan`: fill 256 fan entries from consecutive big-endian `u32`s.
`d.chunks(4).zip(fan.iter_mut())` reads the `i`-th full 4-byte chunk into
`fan[i]`; entries beyond the available chunks stay 0, which coincides with
the 0-defaulting reads here (the checked parser accounts for the partial
final chunk of the source precisely). -/
def read_fan (d : Bytes) : List Nat × Nat :=
  ((List.range FAN_LEN).map fun i => read_u32 d (4 * i), FAN_LEN * 4)

/-- The mutable locals of the chunk-directory walk in `try_from`. -/
structure WalkState where
  base_graphs_list_offset : Option Nat
  commit_data_offset : Option Nat
  commit_data_count : Nat
  extra_edges_list_range : Option (Nat × Nat)
  fan_offset : Option Nat
  oid_lookup_offset : Option Nat
  oid_lookup_count : Nat
deriving DecidableEq, Repr

/-- The initial walk state: all chunk offsets undiscovered, counts 0. -/
def WalkState.init : WalkState :=
  { base_graphs_list_offset := none
    commit_data_offset := none
    commit_data_count := 0
    extra_edges_list_range := none
    fan_offset := none
    oid_lookup_offset := none
    oid_lookup_count := 0 }

/-- The `match chunk_id` dispatch of the walk: duplicate detection and the
per-chunk size constraints. `(chunk_size / n) as u32` casts are modelled by
`% 2 ^ 32`. Unrecognized ids fall through to the identity. -/
def dispatch_chunk (chunk_id : ChunkId) (chunk_size chunk_offset next_chunk_offset : Nat)
    (base_graph_count : Nat) (st : WalkState) : Except Error WalkState :=
  if chunk_id = BASE_GRAPHS_LIST_CHUNK_ID then
    if st.base_graphs_list_offset.isSome then .error (.DuplicateChunk chunk_id)
    else if chunk_size % SHA1_SIZE ≠ 0 then
      .error (.InvalidChunkSize chunk_id
        ("chunk size " ++ toString chunk_size ++ " is not a multiple of " ++ toString SHA1_SIZE))
    else if chunk_size / SHA1_SIZE % 2 ^ 32 ≠ base_graph_count then
      .error (.BaseGraphMismatch base_graph_count (chunk_size / SHA1_SIZE % 2 ^ 32))
    else .ok { st with base_graphs_list_offset := some chunk_offset }
  else if chunk_id = COMMIT_DATA_CHUNK_ID then
    if st.commit_data_offset.isSome then .error (.DuplicateChunk chunk_id)
    else if chunk_size % COMMIT_DATA_ENTRY_SIZE ≠ 0 then
      .error (.InvalidChunkSize chunk_id
        ("chunk size " ++ toString chunk_size ++ " is not a multiple of " ++
          toString COMMIT_DATA_ENTRY_SIZE))
    else .ok { st with
      commit_data_offset := some chunk_offset
      commit_data_count := chunk_size / COMMIT_DATA_ENTRY_SIZE % 2 ^ 32 }
  else if chunk_id = EXTENDED_EDGES_LIST_CHUNK_ID then
    if st.extra_edges_list_range.isSome then .error (.DuplicateChunk chunk_id)
    else .ok { st with extra_edges_list_range := some (chunk_offset, next_chunk_offset) }
  else if chunk_id = OID_FAN_CHUNK_ID then
    if st.fan_offset.isSome then .error (.DuplicateChunk chunk_id)
    else if chunk_size ≠ 4 * FAN_LEN then
      .error (.InvalidChunkSize chunk_id
        ("expected chunk length " ++ toString (4 * FAN_LEN) ++ ", got " ++ toString chunk_size))
    else .ok { st with fan_offset := some chunk_offset }
  else if chunk_id = OID_LOOKUP_CHUNK_ID then
    if st.oid_lookup_offset.isSome then .error (.DuplicateChunk chunk_id)
    else if chunk_size % OID_LOOKUP_ENTRY_SIZE ≠ 0 then
      .error (.InvalidChunkSize chunk_id
        ("chunk size " ++ toString chunk_size ++ " is not a multiple of " ++
          toString OID_LOOKUP_ENTRY_SIZE))
    else .ok { st with
      oid_lookup_offset := some chunk_offset
      oid_lookup_count := chunk_size / OID_LOOKUP_ENTRY_SIZE % 2 ^ 32 }
  else .ok st

/-- One iteration of the walk: `checked_sub` for the chunk size, the
end-of-file bound on the next offset, then the dispatch. -/
def process_chunk (data_size : Nat) (chunk_id : ChunkId)
    (chunk_offset next_chunk_offset base_graph_count : Nat) (st : WalkState) :
    Except Error WalkState :=
  if next_chunk_offset < chunk_offset then
    .error (.InvalidChunkSize chunk_id "size is negative")
  else if data_size ≤ next_chunk_offset then
    .error (.InvalidChunkSize chunk_id "chunk extends beyond end of file")
  else
    dispatch_chunk chunk_id (next_chunk_offset - chunk_offset) chunk_offset
      next_chunk_offset base_graph_count st

/-- The `for _ in 0..chunk_count` loop: each step reads the next directory
entry at `ofs` and processes the previous one against it, returning the
final (sentinel) chunk id and the accumulated state. -/
def walk_chunks (data : Bytes) (data_size base_graph_count : Nat) :
    Nat → Nat → ChunkId → Nat → WalkState → Except Error (ChunkId × WalkState)
  | 0, _ofs, chunk_id, _chunk_offset, st => .ok (chunk_id, st)
  | n + 1, ofs, chunk_id, chunk_offset, st =>
    let next_chunk_id := read_chunk_id data ofs
    let next_chunk_offset := read_u64 data (ofs + 4)
    match process_chunk data_size chunk_id chunk_offset next_chunk_offset base_graph_count st with
    | .error e => .error e
    | .ok st' =>
      walk_chunks data data_size base_graph_count n (ofs + CHUNK_LOOKUP_SIZE)
        next_chunk_id next_chunk_offset st'

/-- Everything after the walk: the sentinel check, the required-chunk checks,
the fan read and the commit-count checks, ending in the `File` value. -/
def post_walk (data : Bytes) (base_graph_count : Nat) (chunk_id : ChunkId)
    (st : WalkState) : Except Error File :=
  if chunk_id ≠ SENTINEL_CHUNK_ID then
    .error (.Corrupt ("Commit-graph file has invalid last chunk ID: " ++ toString chunk_id))
  else
    match st.fan_offset with
    | none => .error (.MissingChunk OID_FAN_CHUNK_ID)
    | some fan_offset =>
      match st.oid_lookup_offset with
      | none => .error (.MissingChunk OID_LOOKUP_CHUNK_ID)
      | some oid_lookup_offset =>
        match st.commit_data_offset with
        | none => .error (.MissingChunk COMMIT_DATA_CHUNK_ID)
        | some commit_data_offset =>
          if 0 < base_graph_count ∧ st.base_graphs_list_offset = none then
            .error (.MissingChunk BASE_GRAPHS_LIST_CHUNK_ID)
          else
            let fan := (read_fan (data.drop fan_offset)).1
            let fan255 := fan.getD 255 0
            if st.oid_lookup_count ≠ fan255 then
              .error (.CommitCountMismatch OID_FAN_CHUNK_ID fan255
                OID_LOOKUP_CHUNK_ID st.oid_lookup_count)
            else if st.commit_data_count ≠ fan255 then
              .error (.CommitCountMismatch OID_FAN_CHUNK_ID fan255
                COMMIT_DATA_CHUNK_ID st.commit_data_count)
            else
              .ok { base_graph_count := base_graph_count
                    base_graphs_list_offset := st.base_graphs_list_offset
                    commit_data_offset := commit_data_offset
                    data := data
                    extra_edges_list_range := st.extra_edges_list_range
                    fan := fan
                    oid_lookup_offset := oid_lookup_offset }

/-- `TryFrom<&Path> for File::try_from`, from the point where the file's
bytes are in hand: header validation, chunk-directory bounds, the walk,
and the post-walk checks. -/
def try_from (data : Bytes) : Except Error File :=
  let data_size := data.length
  if data_size < MIN_FILE_SIZE then
    .error (.Corrupt "Commit-graph file too small even for an empty graph")
  else if read_chunk_id data 0 ≠ SIGNATURE then
    .error (.Corrupt "Commit-graph file does not start with expected signature")
  else if byteAt data 4 ≠ 1 then
    .error (.UnsupportedVersion (byteAt data 4))
  else if byteAt data 5 ≠ 1 then
    .error (.UnsupportedHashVersion (byteAt data 5))
  else
    let chunk_count := byteAt data 6
    let base_graph_count := byteAt data 7
    let chunk_lookup_end := HEADER_LEN + (chunk_count + 1) * CHUNK_LOOKUP_SIZE
    if data_size < chunk_lookup_end then
      .error (.Corrupt
        ("Commit-graph file is too small to hold " ++ toString chunk_count ++ " chunks"))
    else
      let chunk_id := read_chunk_id data HEADER_LEN
      let chunk_offset := read_u64 data (HEADER_LEN + 4)
      if chunk_offset < chunk_lookup_end then
        .error (.Corrupt
          ("Commit-graph chunk 0 has invalid offset " ++ toString chunk_offset ++
            " (must be at least " ++ toString chunk_lookup_end ++ ")"))
      else
        match walk_chunks data data_size base_graph_count chunk_count
            (HEADER_LEN + CHUNK_LOOKUP_SIZE) chunk_id chunk_offset WalkState.init with
        | .error e => .error e
        | .ok (final_id, st) => post_walk data base_graph_count final_id st

deriving instance DecidableEq for Except

/-- Big-endian encoding of a 64-bit offset, for building concrete test files. -/
def u64be (n : Nat) : Bytes :=
  [n / 2 ^ 56 % 256, n / 2 ^ 48 % 256, n / 2 ^ 40 % 256, n / 2 ^ 32 % 256,
   n / 2 ^ 24 % 256, n / 2 ^ 16 % 256, n / 2  ^ 8 % 256, n % 256]

/-- A commit-graph file whose chunk data ends exactly at end of file: header
with 3 chunks, directory `OIDF` at 56, `OIDL` and `CDAT` empty at 1080,
sentinel offset 1080, then the 1024 zero bytes of the fan. Its length is
1080, equal to the sentinel offset. -/
def c2data : Bytes :=
  [0x43, 0x47, 0x50, 0x48, 1, 1, 3, 0]
  ++ OID_FAN_CHUNK_ID ++ u64be 56
  ++ OID_LOOKUP_CHUNK_ID ++ u64be 1080
  ++ COMMIT_DATA_CHUNK_ID ++ u64be 1080
  ++ SENTINEL_CHUNK_ID ++ u64be 1080
  ++ List.replicate 1024 0

/-- A commit-graph file that passes every check of `try_from` but whose fan
table is not monotone: `fan[0] = 1` while all later entries, in particular
`fan[255]`, are 0, matching the empty `OIDL` and `CDAT` chunks. One trailing
byte keeps the sentinel offset 1080 below the file size 1081. -/
def c3data : Bytes :=
  [0x43, 0x47, 0x50, 0x48, 1, 1, 3, 0]
  ++ OID_FAN_CHUNK_ID ++ u64be 56
  ++ OID_LOOKUP_CHUNK_ID ++ u64be 1080
  ++ COMMIT_DATA_CHUNK_ID ++ u64be 1080
  ++ SENTINEL_CHUNK_ID ++ u64be 1080
  ++ ([0, 0, 0, 1] ++ List.replicate 1020 0)
  ++ [0]

/-- A commit-graph file with an `EDGE` chunk of one word, `5`, whose top
(terminator) bit is not set: 4 chunks, `OIDF` at 68, empty `OIDL` and
`CDAT` at 1092, `EDGE` from 1092 to the sentinel offset 1096, one trailing
byte; 1097 bytes in all. -/
def c9data : Bytes :=
  [0x43, 0x47, 0x50, 0x48, 1, 1, 4, 0]
  ++ OID_FAN_CHUNK_ID ++ u64be 68
  ++ OID_LOOKUP_CHUNK_ID ++ u64be 1092
  ++ COMMIT_DATA_CHUNK_ID ++ u64be 1092
  ++ EXTENDED_EDGES_LIST_CHUNK_ID ++ u64be 1092
  ++ SENTINEL_CHUNK_ID ++ u64be 1096
  ++ List.replicate 1024 0
  ++ [0, 0, 0, 5]
  ++ [0]

/-- The fan table of a successfully opened file (empty on failure). -/
def opened_fan (data : Bytes) : List Nat :=
  match try_from data with
  | .ok f => f.fan
  | .error _ => []

/-- The extra-edges range of a successfully opened file (`none` on failure). -/
def opened_extra_edges (data : Bytes) : Option (Nat × Nat) :=
  match try_from data with
  | .ok f => f.extra_edges_list_range
  | .error _ => none

/-- A checked byte read: `none` models the panic of an out-of-range index. -/
def read_u32Checked (d : Bytes) (ofs : Nat) : Option Nat :=
  match d.get? ofs, d.get? (ofs + 1), d.get? (ofs + 2), d.get? (ofs + 3) with
  | some b0, some b1, some b2, some b3 =>
    some (b0 * 2 ^ 24 + b1 * 2 ^ 16 + b2 * 2 ^ 8 + b3)
  | _, _, _, _ => none

/-- A checked 8-byte big-endian read. -/
def read_u64Checked (d : Bytes) (ofs : Nat) : Option Nat :=
  match d.get? ofs, d.get? (ofs + 1), d.get? (ofs + 2), d.get? (ofs + 3),
      d.get? (ofs + 4), d.get? (ofs + 5), d.get? (ofs + 6), d.get? (ofs + 7) with
  | some b0, some b1, some b2, some b3, some b4, some b5, some b6, some b7 =>
    some (b0 * 2 ^ 56 + b1 * 2 ^ 48 + b2 * 2 ^ 40 + b3 * 2 ^ 32 +
      b4 * 2 ^ 24 + b5 * 2 ^ 16 + b6 * 2 ^ 8 + b7)
  | _, _, _, _, _, _, _, _ => none

/-- A checked 4-byte slice read. -/
def read_chunk_idChecked (d : Bytes) (ofs : Nat) : Option ChunkId :=
  match d.get? ofs, d.get? (ofs + 1), d.get? (ofs + 2), d.get? (ofs + 3) with
  | some b0, some b1, some b2, some b3 => some [b0, b1, b2, b3]
  | _, _, _, _ => none

/-- The checked fan fill: `d.chunks(4)` zipped with the remaining fan slots.
Running out of chunks leaves the remaining entries 0; a partial 4-byte chunk
inside the first 256 panics in `BigEndian::read_u32` (`none` here). -/
def read_fan_go : Bytes → Nat → Option (List Nat)
  | _, 0 => some []
  | [], n + 1 => some (List.replicate (n + 1) 0)
  | d, n + 1 =>
    if 4 ≤ d.length then
      match read_u32Checked d 0, read_fan_go (d.drop 4) n with
      | some w, some rest => some (w :: rest)
      | _, _ => none
    else none

/-- The checked `read_fan`. -/
def read_fanChecked (d : Bytes) : Option (List Nat) := read_fan_go d FAN_LEN

/-- The checked walk: every directory-entry read is bounds-checked;
`process_chunk` itself reads no bytes. -/
def walk_chunksChecked (data : Bytes) (data_size base_graph_count : Nat) :
    Nat → Nat → ChunkId → Nat → WalkState → Option (Except Error (ChunkId × WalkState))
  | 0, _ofs, chunk_id, _chunk_offset, st => some (.ok (chunk_id, st))
  | n + 1, ofs, chunk_id, chunk_offset, st =>
    match read_chunk_idChecked data ofs with
    | none => none
    | some next_chunk_id =>
      match read_u64Checked data (ofs + 4) with
      | none => none
      | some next_chunk_offset =>
        match process_chunk data_size chunk_id chunk_offset next_chunk_offset
            base_graph_count st with
        | .error e => some (.error e)
        | .ok st' =>
          walk_chunksChecked data data_size base_graph_count n (ofs + CHUNK_LOOKUP_SIZE)
            next_chunk_id next_chunk_offset st'

/-- The checked post-walk phase: only the fan read touches bytes. -/
def post_walkChecked (data : Bytes) (base_graph_count : Nat) (chunk_id : ChunkId)
    (st : WalkState) : Option (Except Error File) :=
  if chunk_id ≠ SENTINEL_CHUNK_ID then
    some (.error (.Corrupt
      ("Commit-graph file has invalid last chunk ID: " ++ toString chunk_id)))
  else
    match st.fan_offset with
    | none => some (.error (.MissingChunk OID_FAN_CHUNK_ID))
    | some fan_offset =>
      match st.oid_lookup_offset with
      | none => some (.error (.MissingChunk OID_LOOKUP_CHUNK_ID))
      | some oid_lookup_offset =>
        match st.commit_data_offset with
        | none => some (.error (.MissingChunk COMMIT_DATA_CHUNK_ID))
        | some commit_data_offset =>
          if 0 < base_graph_count ∧ st.base_graphs_list_offset = none then
            some (.error (.MissingChunk BASE_GRAPHS_LIST_CHUNK_ID))
          else
            match read_fanChecked (data.drop fan_offset) with
            | none => none
            | some fan =>
              let fan255 := fan.getD 255 0
              if st.oid_lookup_count ≠ fan255 then
                some (.error (.CommitCountMismatch OID_FAN_CHUNK_ID fan255
                  OID_LOOKUP_CHUNK_ID st.oid_lookup_count))
              else if st.commit_data_count ≠ fan255 then
                some (.error (.CommitCountMismatch OID_FAN_CHUNK_ID fan255
                  COMMIT_DATA_CHUNK_ID st.commit_data_count))
              else
                some (.ok { base_graph_count := base_graph_count
                            base_graphs_list_offset := st.base_graphs_list_offset
                            commit_data_offset := commit_data_offset
                            data := data
                            extra_edges_list_range := st.extra_edges_list_range
                            fan := fan
                            oid_lookup_offset := oid_lookup_offset })

/-- The checked `try_from`: every byte access of the parse is bounds-checked
and an out-of-range access yields `none` (the model of a panic). -/
def try_fromChecked (data : Bytes) : Option (Except Error File) :=
  let data_size := data.length
  if data_size < MIN_FILE_SIZE then
    some (.error (.Corrupt "Commit-graph file too small even for an empty graph"))
  else
    match read_chunk_idChecked data 0 with
    | none => none
    | some sig =>
      if sig ≠ SIGNATURE then
        some (.error (.Corrupt "Commit-graph file does not start with expected signature"))
      else
        match data.get? 4 with
        | none => none
        | some v =>
          if v ≠ 1 then some (.error (.UnsupportedVersion v))
          else
            match data.get? 5 with
            | none => none
            | some hv =>
              if hv ≠ 1 then some (.error (.UnsupportedHashVersion hv))
              else
                match data.get? 6, data.get? 7 with
                | some chunk_count, some base_graph_count =>
                  let chunk_lookup_end := HEADER_LEN + (chunk_count + 1) * CHUNK_LOOKUP_SIZE
                  if data_size < chunk_lookup_end then
                    some (.error (.Corrupt
                      ("Commit-graph file is too small to hold " ++ toString chunk_count ++
                        " chunks")))
                  else
                    match read_chunk_idChecked data HEADER_LEN,
                        read_u64Checked data (HEADER_LEN + 4) with
                    | some chunk_id, some chunk_offset =>
                      if chunk_offset < chunk_lookup_end then
                        some (.error (.Corrupt
                          ("Commit-graph chunk 0 has invalid offset " ++
                            toString chunk_offset ++ " (must be at least " ++
                            toString chunk_lookup_end ++ ")")))
                      else
                        match walk_chunksChecked data data_size base_graph_count chunk_count
                            (HEADER_LEN + CHUNK_LOOKUP_SIZE) chunk_id chunk_offset
                            WalkState.init with
                        | none => none
                        | some (.error e) => some (.error e)
                        | some (.ok (final_id, st)) =>
                          post_walkChecked data base_graph_count final_id st
                    | _, _ => none
                | _, _ => none

/-- A walk state records a fan offset only with 1024 readable bytes after it
and before `data_size`. -/
def fan_bounded (data_size : Nat) (st : WalkState) : Prop :=
  ∀ fo, st.fan_offset = some fo → fo + 4 * FAN_LEN < data_size

/-- Claim C7: header validation is checked in order at fixed offsets: a wrong
signature fails with `Corrupt`, then a format version other than 1 fails with
`UnsupportedVersion` carrying byte 4, then a hash version other than 1 fails
with `UnsupportedHashVersion` carrying byte 5. -/
theorem header_validation (data : Bytes) (hlen : MIN_FILE_SIZE ≤ data.length) :
    (read_chunk_id data 0 ≠ SIGNATURE →
      try_from data = .error (.Corrupt "Commit-graph file does not start with expected signature"))
  ∧ (read_chunk_id data 0 = SIGNATURE → byteAt data 4 ≠ 1 →
      try_from data = .error (.UnsupportedVersion (byteAt data 4)))
  ∧ (read_chunk_id data 0 = SIGNATURE → byteAt data 4 = 1 → byteAt data 5 ≠ 1 →
      try_from data = .error (.UnsupportedHashVersion (byteAt data 5))) := by
  have h : ¬ data.length < MIN_FILE_SIZE := by omega
  refine ⟨fun h1 => ?_, fun h1 h2 => ?_, fun h1 h2 h3 => ?_⟩ <;>
    simp [try_from, h, h1, *]

/-- Witness for C7 at concrete inputs: an all-zero 56-byte file is rejected
for its signature; fixing the signature but using version 2 is rejected as an
unsupported version; fixing both but using hash version 9 is rejected as an
unsupported hash version. -/
theorem header_validation_witness :
    try_from (List.replicate 56 0) =
      .error (.Corrupt "Commit-graph file does not start with expected signature")
  ∧ try_from ([0x43, 0x47, 0x50, 0x48, 2] ++ List.replicate 51 0) =
      .error (.UnsupportedVersion 2)
  ∧ try_from ([0x43, 0x47, 0x50, 0x48, 1, 9] ++ List.replicate 50 0) =
      .error (.UnsupportedHashVersion 9) := by
  refine ⟨?_, ?_, ?_⟩
  · exact (header_validation (List.replicate 56 0) (by decide)).1 (by decide)
  · exact ((header_validation ([0x43, 0x47, 0x50, 0x48, 2] ++ List.replicate 51 0)
      (by decide)).2.1 (by decide) (by decide))
  · exact ((header_validation ([0x43, 0x47, 0x50, 0x48, 1, 9] ++ List.replicate 50 0)
      (by decide)).2.2 (by decide) (by decide) (by decide))

/-- Claim C8: `try_from` fails with `Corrupt` in each structural case: file
smaller than the minimum size (header plus a 3-chunk directory with
sentinel), a declared chunk directory extending past end of file, a first
chunk offset below the end of the chunk directory, and a final directory
entry whose id differs from the all-zero sentinel. -/
theorem corrupt_structural_cases (data : Bytes) :
    (data.length < MIN_FILE_SIZE →
       try_from data = .error (.Corrupt "Commit-graph file too small even for an empty graph"))
  ∧ (MIN_FILE_SIZE ≤ data.length → read_chunk_id data 0 = SIGNATURE →
       byteAt data 4 = 1 → byteAt data 5 = 1 →
       data.length < HEADER_LEN + (byteAt data 6 + 1) * CHUNK_LOOKUP_SIZE →
       try_from data = .error (.Corrupt
         ("Commit-graph file is too small to hold " ++ toString (byteAt data 6) ++ " chunks")))
  ∧ (MIN_FILE_SIZE ≤ data.length → read_chunk_id data 0 = SIGNATURE →
       byteAt data 4 = 1 → byteAt data 5 = 1 →
       HEADER_LEN + (byteAt data 6 + 1) * CHUNK_LOOKUP_SIZE ≤ data.length →
       read_u64 data (HEADER_LEN + 4) < HEADER_LEN + (byteAt data 6 + 1) * CHUNK_LOOKUP_SIZE →
       try_from data = .error (.Corrupt
         ("Commit-graph chunk 0 has invalid offset " ++ toString (read_u64 data (HEADER_LEN + 4)) ++
           " (must be at least " ++
           toString (HEADER_LEN + (byteAt data 6 + 1) * CHUNK_LOOKUP_SIZE) ++ ")")))
  ∧ (∀ bgc fid st, fid ≠ SENTINEL_CHUNK_ID →
       post_walk data bgc fid st = .error (.Corrupt
         ("Commit-graph file has invalid last chunk ID: " ++ toString fid))) := by
  refine ⟨fun h1 => by simp [try_from, h1], fun h0 h1 h2 h3 h4 => ?_,
    fun h0 h1 h2 h3 h4 h5 => ?_, fun bgc fid st h1 => by simp [post_walk, h1]⟩
  · have h : ¬ data.length < MIN_FILE_SIZE := by omega
    simp [try_from, h, h1, h2, h3, h4]
  · have h : ¬ data.length < MIN_FILE_SIZE := by omega
    have h4' : ¬ data.length < HEADER_LEN + (byteAt data 6 + 1) * CHUNK_LOOKUP_SIZE := by omega
    simp [try_from, h, h1, h2, h3, h4', h5]

/-- Witness for C8 at concrete inputs: the empty file is too small; a header
declaring 255 chunks in a 56-byte file overflows the directory; a first chunk
offset of 0 is below the directory end 56; a final id of `DEAD` is not the
sentinel. -/
theorem corrupt_structural_cases_witness :
    try_from [] = .error (.Corrupt "Commit-graph file too small even for an empty graph")
  ∧ try_from ([0x43, 0x47, 0x50, 0x48, 1, 1, 255, 0] ++ List.replicate 48 0) =
      .error (.Corrupt "Commit-graph file is too small to hold 255 chunks")
  ∧ try_from ([0x43, 0x47, 0x50, 0x48, 1, 1, 3, 0] ++ List.replicate 48 0) =
      .error (.Corrupt "Commit-graph chunk 0 has invalid offset 0 (must be at least 56)")
  ∧ post_walk [] 0 [0x44, 0x45, 0x41, 0x44] WalkState.init =
      .error (.Corrupt "Commit-graph file has invalid last chunk ID: [68, 69, 65, 68]") := by
  refine ⟨?_, ?_, ?_, ?_⟩
  · exact (corrupt_structural_cases []).1 (by decide)
  · exact (corrupt_structural_cases _).2.1 (by decide) (by decide) (by decide) (by decide)
      (by decide)
  · exact (corrupt_structural_cases _).2.2.1 (by decide) (by decide) (by decide) (by decide)
      (by decide) (by decide)
  · exact (corrupt_structural_cases []).2.2.2 0 [0x44, 0x45, 0x41, 0x44] WalkState.init
      (by decide)

/-- Claim C4: after a valid sentinel, a missing `OIDF`, `OIDL` or `CDAT`
chunk fails with `MissingChunk` of that id (checked in that order), a missing
`BASE` chunk fails with `MissingChunk BASE` exactly when the header's
`base_graph_count` is positive, and with `base_graph_count = 0` no
`MissingChunk BASE` error is possible. -/
theorem missing_chunk_checks (data : Bytes) (bgc : Nat) (st : WalkState) :
    (st.fan_offset = none →
       post_walk data bgc SENTINEL_CHUNK_ID st = .error (.MissingChunk OID_FAN_CHUNK_ID))
  ∧ (∀ fo, st.fan_offset = some fo → st.oid_lookup_offset = none →
       post_walk data bgc SENTINEL_CHUNK_ID st = .error (.MissingChunk OID_LOOKUP_CHUNK_ID))
  ∧ (∀ fo lo, st.fan_offset = some fo → st.oid_lookup_offset = some lo →
       st.commit_data_offset = none →
       post_walk data bgc SENTINEL_CHUNK_ID st = .error (.MissingChunk COMMIT_DATA_CHUNK_ID))
  ∧ (∀ fo lo co, st.fan_offset = some fo → st.oid_lookup_offset = some lo →
       st.commit_data_offset = some co → 0 < bgc → st.base_graphs_list_offset = none →
       post_walk data bgc SENTINEL_CHUNK_ID st =
         .error (.MissingChunk BASE_GRAPHS_LIST_CHUNK_ID))
  ∧ (bgc = 0 →
       post_walk data bgc SENTINEL_CHUNK_ID st ≠
         .error (.MissingChunk BASE_GRAPHS_LIST_CHUNK_ID)) := by
  refine ⟨fun h1 => by simp [post_walk, h1], fun fo h1 h2 => by simp [post_walk, h1, h2],
    fun fo lo h1 h2 h3 => by simp [post_walk, h1, h2, h3],
    fun fo lo co h1 h2 h3 h4 h5 => by simp [post_walk, h1, h2, h3, h4, h5],
    fun h0 hc => ?_⟩
  subst h0
  simp only [post_walk] at hc
  split at hc
  · simp at hc
  split at hc
  · simp [OID_FAN_CHUNK_ID, BASE_GRAPHS_LIST_CHUNK_ID] at hc
  split at hc
  · simp [OID_LOOKUP_CHUNK_ID, BASE_GRAPHS_LIST_CHUNK_ID] at hc
  split at hc
  · simp [COMMIT_DATA_CHUNK_ID, BASE_GRAPHS_LIST_CHUNK_ID] at hc
  split at hc
  · simp_all
  split at hc
  · simp at hc
  split at hc
  · simp at hc
  simp at hc

/-- Witness for C4 at concrete states: the empty walk state is missing
`OIDF`; with `OIDF` found it is missing `OIDL`; with both it is missing
`CDAT`; with all three and one declared base graph it is missing `BASE`;
with `base_graph_count = 0` the same state is not rejected for `BASE`. -/
theorem missing_chunk_checks_witness :
    post_walk [] 0 SENTINEL_CHUNK_ID WalkState.init =
      .error (.MissingChunk OID_FAN_CHUNK_ID)
  ∧ post_walk [] 0 SENTINEL_CHUNK_ID { WalkState.init with fan_offset := some 56 } =
      .error (.MissingChunk OID_LOOKUP_CHUNK_ID)
  ∧ post_walk [] 0 SENTINEL_CHUNK_ID
      { WalkState.init with
        fan_offset := some 56
        oid_lookup_offset := some 1080 } =
      .error (.MissingChunk COMMIT_DATA_CHUNK_ID)
  ∧ post_walk [] 1 SENTINEL_CHUNK_ID
      { WalkState.init with
        fan_offset := some 56
        oid_lookup_offset := some 1080
        commit_data_offset := some 1080 } =
      .error (.MissingChunk BASE_GRAPHS_LIST_CHUNK_ID)
  ∧ post_walk [] 0 SENTINEL_CHUNK_ID
      { WalkState.init with
        fan_offset := some 56
        oid_lookup_offset := some 1080
        commit_data_offset := some 1080 } ≠
      .error (.MissingChunk BASE_GRAPHS_LIST_CHUNK_ID) := by
  refine ⟨?_, ?_, ?_, ?_, ?_⟩
  · exact (missing_chunk_checks [] 0 WalkState.init).1 rfl
  · exact (missing_chunk_checks [] 0 _).2.1 56 rfl rfl
  · exact (missing_chunk_checks [] 0 _).2.2.1 56 1080 rfl rfl rfl
  · exact (missing_chunk_checks [] 1 _).2.2.2.1 56 1080 1080 rfl rfl rfl (by decide) rfl
  · exact (missing_chunk_checks [] 0 _).2.2.2.2 rfl

/-- Claim C5: with in-bounds offsets, each recognized chunk's size constraint
is enforced during the walk: `OIDF` must be exactly 1024 bytes, `OIDL` a
multiple of 20, `CDAT` a multiple of 36 and `BASE` a multiple of 20, each
violation failing with `InvalidChunkSize` of that id; a `BASE` chunk whose
entry count differs from the header's `base_graph_count` fails with
`BaseGraphMismatch` carrying the header count and the list count; `EDGE` has
no size constraint. The count hypotheses `size / 20 < 2 ^ 32` make the
`usize`-to-`u32` cast of the source the identity. -/
theorem chunk_size_constraints (data_size prev next bgc : Nat) (st : WalkState)
    (hmono : prev ≤ next) (hbound : next < data_size) :
    (st.fan_offset = none → next - prev ≠ 4 * FAN_LEN →
       process_chunk data_size OID_FAN_CHUNK_ID prev next bgc st =
         .error (.InvalidChunkSize OID_FAN_CHUNK_ID
           ("expected chunk length " ++ toString (4 * FAN_LEN) ++ ", got " ++
             toString (next - prev))))
  ∧ (st.fan_offset = none → next - prev = 4 * FAN_LEN →
       process_chunk data_size OID_FAN_CHUNK_ID prev next bgc st =
         .ok { st with fan_offset := some prev })
  ∧ (st.oid_lookup_offset = none → (next - prev) % OID_LOOKUP_ENTRY_SIZE ≠ 0 →
       process_chunk data_size OID_LOOKUP_CHUNK_ID prev next bgc st =
         .error (.InvalidChunkSize OID_LOOKUP_CHUNK_ID
           ("chunk size " ++ toString (next - prev) ++ " is not a multiple of " ++
             toString OID_LOOKUP_ENTRY_SIZE)))
  ∧ (st.oid_lookup_offset = none → (next - prev) % OID_LOOKUP_ENTRY_SIZE = 0 →
       (next - prev) / OID_LOOKUP_ENTRY_SIZE < 2 ^ 32 →
       process_chunk data_size OID_LOOKUP_CHUNK_ID prev next bgc st =
         .ok { st with
           oid_lookup_offset := some prev
           oid_lookup_count := (next - prev) / OID_LOOKUP_ENTRY_SIZE })
  ∧ (st.commit_data_offset = none → (next - prev) % COMMIT_DATA_ENTRY_SIZE ≠ 0 →
       process_chunk data_size COMMIT_DATA_CHUNK_ID prev next bgc st =
         .error (.InvalidChunkSize COMMIT_DATA_CHUNK_ID
           ("chunk size " ++ toString (next - prev) ++ " is not a multiple of " ++
             toString COMMIT_DATA_ENTRY_SIZE)))
  ∧ (st.commit_data_offset = none → (next - prev) % COMMIT_DATA_ENTRY_SIZE = 0 →
       (next - prev) / COMMIT_DATA_ENTRY_SIZE < 2 ^ 32 →
       process_chunk data_size COMMIT_DATA_CHUNK_ID prev next bgc st =
         .ok { st with
           commit_data_offset := some prev
           commit_data_count := (next - prev) / COMMIT_DATA_ENTRY_SIZE })
  ∧ (st.base_graphs_list_offset = none → (next - prev) % SHA1_SIZE ≠ 0 →
       process_chunk data_size BASE_GRAPHS_LIST_CHUNK_ID prev next bgc st =
         .error (.InvalidChunkSize BASE_GRAPHS_LIST_CHUNK_ID
           ("chunk size " ++ toString (next - prev) ++ " is not a multiple of " ++
             toString SHA1_SIZE)))
  ∧ (st.base_graphs_list_offset = none → (next - prev) % SHA1_SIZE = 0 →
       (next - prev) / SHA1_SIZE < 2 ^ 32 → (next - prev) / SHA1_SIZE ≠ bgc →
       process_chunk data_size BASE_GRAPHS_LIST_CHUNK_ID prev next bgc st =
         .error (.BaseGraphMismatch bgc ((next - prev) / SHA1_SIZE)))
  ∧ (st.base_graphs_list_offset = none → (next - prev) % SHA1_SIZE = 0 →
       (next - prev) / SHA1_SIZE < 2 ^ 32 → (next - prev) / SHA1_SIZE = bgc →
       process_chunk data_size BASE_GRAPHS_LIST_CHUNK_ID prev next bgc st =
         .ok { st with base_graphs_list_offset := some prev })
  ∧ (st.extra_edges_list_range = none →
       process_chunk data_size EXTENDED_EDGES_LIST_CHUNK_ID prev next bgc st =
         .ok { st with extra_edges_list_range := some (prev, next) }) := by
  have hm : ¬ next < prev := by omega
  have hb : ¬ data_size ≤ next := by omega
  have hids : OID_FAN_CHUNK_ID ≠ BASE_GRAPHS_LIST_CHUNK_ID ∧
      OID_FAN_CHUNK_ID ≠ COMMIT_DATA_CHUNK_ID ∧
      OID_FAN_CHUNK_ID ≠ EXTENDED_EDGES_LIST_CHUNK_ID ∧
      OID_LOOKUP_CHUNK_ID ≠ BASE_GRAPHS_LIST_CHUNK_ID ∧
      OID_LOOKUP_CHUNK_ID ≠ COMMIT_DATA_CHUNK_ID ∧
      OID_LOOKUP_CHUNK_ID ≠ EXTENDED_EDGES_LIST_CHUNK_ID ∧
      OID_LOOKUP_CHUNK_ID ≠ OID_FAN_CHUNK_ID ∧
      COMMIT_DATA_CHUNK_ID ≠ BASE_GRAPHS_LIST_CHUNK_ID ∧
      EXTENDED_EDGES_LIST_CHUNK_ID ≠ BASE_GRAPHS_LIST_CHUNK_ID ∧
      EXTENDED_EDGES_LIST_CHUNK_ID ≠ COMMIT_DATA_CHUNK_ID := by decide
  obtain ⟨i1, i2, i3, i4, i5, i6, i7, i8, i9, i10⟩ := hids
  refine ⟨fun h1 h2 => ?_, fun h1 h2 => ?_, fun h1 h2 => ?_, fun h1 h2 h3 => ?_,
    fun h1 h2 => ?_, fun h1 h2 h3 => ?_, fun h1 h2 => ?_, fun h1 h2 h3 h4 => ?_,
    fun h1 h2 h3 h4 => ?_, fun h1 => ?_⟩
  · simp [process_chunk, dispatch_chunk, hm, hb, h1, h2, i1, i2, i3]
  · simp [process_chunk, dispatch_chunk, hm, hb, h1, h2, i1, i2, i3]
  · simp [process_chunk, dispatch_chunk, hm, hb, h1, h2, i4, i5, i6, i7]
  · have hmod := Nat.mod_eq_of_lt h3
    simp [process_chunk, dispatch_chunk, hm, hb, h1, h2, hmod, i4, i5, i6, i7]
    omega
  · simp [process_chunk, dispatch_chunk, hm, hb, h1, h2, i8]
  · have hmod := Nat.mod_eq_of_lt h3
    simp [process_chunk, dispatch_chunk, hm, hb, h1, h2, hmod, i8]
    omega
  · simp [process_chunk, dispatch_chunk, hm, hb, h1, h2]
  · have hmod : (next - prev) / SHA1_SIZE % 4294967296 = (next - prev) / SHA1_SIZE :=
      Nat.mod_eq_of_lt (by omega)
    simp [process_chunk, dispatch_chunk, hm, hb, h1, h2, hmod, h4]
  · have hmod : (next - prev) / SHA1_SIZE % 4294967296 = (next - prev) / SHA1_SIZE :=
      Nat.mod_eq_of_lt (by omega)
    simp [process_chunk, dispatch_chunk, hm, hb, h1, h2, hmod, h4]
    omega
  · simp [process_chunk, dispatch_chunk, hm, hb, h1, i9, i10]

/-- Witness for C5 at concrete inputs, one per conjunct: a 100-byte `OIDF` is
rejected and a 1024-byte one accepted; a 30-byte `OIDL` is rejected and a
40-byte one accepted with count 2; a 30-byte `CDAT` is rejected and a 72-byte
one accepted with count 2; a 30-byte `BASE` is rejected, a 40-byte one with
header count 1 raises `BaseGraphMismatch`, and a 40-byte one with header
count 2 is accepted; a 7-byte `EDGE` is accepted. -/
theorem chunk_size_constraints_witness :
    process_chunk 4000 OID_FAN_CHUNK_ID 56 156 0 WalkState.init =
      .error (.InvalidChunkSize OID_FAN_CHUNK_ID "expected chunk length 1024, got 100")
  ∧ process_chunk 4000 OID_FAN_CHUNK_ID 56 1080 0 WalkState.init =
      .ok { WalkState.init with fan_offset := some 56 }
  ∧ process_chunk 4000 OID_LOOKUP_CHUNK_ID 56 86 0 WalkState.init =
      .error (.InvalidChunkSize OID_LOOKUP_CHUNK_ID "chunk size 30 is not a multiple of 20")
  ∧ process_chunk 4000 OID_LOOKUP_CHUNK_ID 56 96 0 WalkState.init =
      .ok { WalkState.init with
        oid_lookup_offset := some 56
        oid_lookup_count := 2 }
  ∧ process_chunk 4000 COMMIT_DATA_CHUNK_ID 56 86 0 WalkState.init =
      .error (.InvalidChunkSize COMMIT_DATA_CHUNK_ID "chunk size 30 is not a multiple of 36")
  ∧ process_chunk 4000 COMMIT_DATA_CHUNK_ID 56 128 0 WalkState.init =
      .ok { WalkState.init with
        commit_data_offset := some 56
        commit_data_count := 2 }
  ∧ process_chunk 4000 BASE_GRAPHS_LIST_CHUNK_ID 56 86 1 WalkState.init =
      .error (.InvalidChunkSize BASE_GRAPHS_LIST_CHUNK_ID
        "chunk size 30 is not a multiple of 20")
  ∧ process_chunk 4000 BASE_GRAPHS_LIST_CHUNK_ID 56 96 1 WalkState.init =
      .error (.BaseGraphMismatch 1 2)
  ∧ process_chunk 4000 BASE_GRAPHS_LIST_CHUNK_ID 56 96 2 WalkState.init =
      .ok { WalkState.init with base_graphs_list_offset := some 56 }
  ∧ process_chunk 4000 EXTENDED_EDGES_LIST_CHUNK_ID 56 63 0 WalkState.init =
      .ok { WalkState.init with extra_edges_list_range := some (56, 63) } := by
  have h := chunk_size_constraints 4000 56 1080 0 WalkState.init (by decide) (by decide)
  have h2 := chunk_size_constraints 4000 56 156 0 WalkState.init (by decide) (by decide)
  have h3 := chunk_size_constraints 4000 56 86 0 WalkState.init (by decide) (by decide)
  have h4 := chunk_size_constraints 4000 56 96 0 WalkState.init (by decide) (by decide)
  have h5 := chunk_size_constraints 4000 56 128 0 WalkState.init (by decide) (by decide)
  have h6 := chunk_size_constraints 4000 56 86 1 WalkState.init (by decide) (by decide)
  have h7 := chunk_size_constraints 4000 56 96 1 WalkState.init (by decide) (by decide)
  have h8 := chunk_size_constraints 4000 56 96 2 WalkState.init (by decide) (by decide)
  have h9 := chunk_size_constraints 4000 56 63 0 WalkState.init (by decide) (by decide)
  exact ⟨h2.1 rfl (by decide), h.2.1 rfl (by decide),
    h3.2.2.1 rfl (by decide), h4.2.2.2.1 rfl (by decide) (by decide),
    h3.2.2.2.2.1 rfl (by decide), h5.2.2.2.2.2.1 rfl (by decide) (by decide),
    h6.2.2.2.2.2.2.1 rfl (by decide),
    h7.2.2.2.2.2.2.2.1 rfl (by decide) (by decide) (by decide),
    h8.2.2.2.2.2.2.2.2.1 rfl (by decide) (by decide) (by decide),
    h9.2.2.2.2.2.2.2.2.2 rfl⟩

/-- Claim C6: during the walk, an unrecognized chunk id is skipped without
failure and without changing the walk state, while a second occurrence of any
recognized chunk id fails with `DuplicateChunk` of that id. -/
theorem unknown_and_duplicate_chunks (data_size prev next bgc : Nat) (st : WalkState)
    (id : ChunkId) (hmono : prev ≤ next) (hbound : next < data_size) :
    (id ≠ BASE_GRAPHS_LIST_CHUNK_ID → id ≠ COMMIT_DATA_CHUNK_ID →
       id ≠ EXTENDED_EDGES_LIST_CHUNK_ID → id ≠ OID_FAN_CHUNK_ID →
       id ≠ OID_LOOKUP_CHUNK_ID →
       process_chunk data_size id prev next bgc st = .ok st)
  ∧ (st.base_graphs_list_offset.isSome →
       process_chunk data_size BASE_GRAPHS_LIST_CHUNK_ID prev next bgc st =
         .error (.DuplicateChunk BASE_GRAPHS_LIST_CHUNK_ID))
  ∧ (st.commit_data_offset.isSome →
       process_chunk data_size COMMIT_DATA_CHUNK_ID prev next bgc st =
         .error (.DuplicateChunk COMMIT_DATA_CHUNK_ID))
  ∧ (st.extra_edges_list_range.isSome →
       process_chunk data_size EXTENDED_EDGES_LIST_CHUNK_ID prev next bgc st =
         .error (.DuplicateChunk EXTENDED_EDGES_LIST_CHUNK_ID))
  ∧ (st.fan_offset.isSome →
       process_chunk data_size OID_FAN_CHUNK_ID prev next bgc st =
         .error (.DuplicateChunk OID_FAN_CHUNK_ID))
  ∧ (st.oid_lookup_offset.isSome →
       process_chunk data_size OID_LOOKUP_CHUNK_ID prev next bgc st =
         .error (.DuplicateChunk OID_LOOKUP_CHUNK_ID)) := by
  have hm : ¬ next < prev := by omega
  have hb : ¬ data_size ≤ next := by omega
  have hids : COMMIT_DATA_CHUNK_ID ≠ BASE_GRAPHS_LIST_CHUNK_ID ∧
      EXTENDED_EDGES_LIST_CHUNK_ID ≠ BASE_GRAPHS_LIST_CHUNK_ID ∧
      EXTENDED_EDGES_LIST_CHUNK_ID ≠ COMMIT_DATA_CHUNK_ID ∧
      OID_FAN_CHUNK_ID ≠ BASE_GRAPHS_LIST_CHUNK_ID ∧
      OID_FAN_CHUNK_ID ≠ COMMIT_DATA_CHUNK_ID ∧
      OID_FAN_CHUNK_ID ≠ EXTENDED_EDGES_LIST_CHUNK_ID ∧
      OID_LOOKUP_CHUNK_ID ≠ BASE_GRAPHS_LIST_CHUNK_ID ∧
      OID_LOOKUP_CHUNK_ID ≠ COMMIT_DATA_CHUNK_ID ∧
      OID_LOOKUP_CHUNK_ID ≠ EXTENDED_EDGES_LIST_CHUNK_ID ∧
      OID_LOOKUP_CHUNK_ID ≠ OID_FAN_CHUNK_ID := by decide
  obtain ⟨i1, i2, i3, i4, i5, i6, i7, i8, i9, i10⟩ := hids
  refine ⟨fun h1 h2 h3 h4 h5 => ?_, fun h1 => ?_, fun h1 => ?_, fun h1 => ?_,
    fun h1 => ?_, fun h1 => ?_⟩
  · simp [process_chunk, dispatch_chunk, hm, hb, h1, h2, h3, h4, h5]
  · simp [process_chunk, dispatch_chunk, hm, hb, h1]
  · simp [process_chunk, dispatch_chunk, hm, hb, h1, i1]
  · simp [process_chunk, dispatch_chunk, hm, hb, h1, i2, i3]
  · simp [process_chunk, dispatch_chunk, hm, hb, h1, i4, i5, i6]
  · simp [process_chunk, dispatch_chunk, hm, hb, h1, i7, i8, i9, i10]

/-- Witness for C6 at concrete inputs: the unknown id `ABCD` is skipped with
the state unchanged, and each of the five recognized ids raises
`DuplicateChunk` on a state that already recorded it. -/
theorem unknown_and_duplicate_chunks_witness :
    process_chunk 4000 [0x41, 0x42, 0x43, 0x44] 56 100 0 WalkState.init =
      .ok WalkState.init
  ∧ process_chunk 4000 BASE_GRAPHS_LIST_CHUNK_ID 56 100 0
      { WalkState.init with base_graphs_list_offset := some 56 } =
      .error (.DuplicateChunk BASE_GRAPHS_LIST_CHUNK_ID)
  ∧ process_chunk 4000 COMMIT_DATA_CHUNK_ID 56 100 0
      { WalkState.init with commit_data_offset := some 56 } =
      .error (.DuplicateChunk COMMIT_DATA_CHUNK_ID)
  ∧ process_chunk 4000 EXTENDED_EDGES_LIST_CHUNK_ID 56 100 0
      { WalkState.init with extra_edges_list_range := some (56, 60) } =
      .error (.DuplicateChunk EXTENDED_EDGES_LIST_CHUNK_ID)
  ∧ process_chunk 4000 OID_FAN_CHUNK_ID 56 100 0
      { WalkState.init with fan_offset := some 56 } =
      .error (.DuplicateChunk OID_FAN_CHUNK_ID)
  ∧ process_chunk 4000 OID_LOOKUP_CHUNK_ID 56 100 0
      { WalkState.init with oid_lookup_offset := some 56 } =
      .error (.DuplicateChunk OID_LOOKUP_CHUNK_ID) := by
  refine ⟨?_, ?_, ?_, ?_, ?_, ?_⟩
  · exact (unknown_and_duplicate_chunks 4000 56 100 0 WalkState.init
      [0x41, 0x42, 0x43, 0x44] (by decide) (by decide)).1 (by decide) (by decide)
      (by decide) (by decide) (by decide)
  · exact (unknown_and_duplicate_chunks 4000 56 100 0
      { WalkState.init with base_graphs_list_offset := some 56 } SENTINEL_CHUNK_ID
      (by decide) (by decide)).2.1 rfl
  · exact (unknown_and_duplicate_chunks 4000 56 100 0
      { WalkState.init with commit_data_offset := some 56 } SENTINEL_CHUNK_ID
      (by decide) (by decide)).2.2.1 rfl
  · exact (unknown_and_duplicate_chunks 4000 56 100 0
      { WalkState.init with extra_edges_list_range := some (56, 60) } SENTINEL_CHUNK_ID
      (by decide) (by decide)).2.2.2.1 rfl
  · exact (unknown_and_duplicate_chunks 4000 56 100 0
      { WalkState.init with fan_offset := some 56 } SENTINEL_CHUNK_ID
      (by decide) (by decide)).2.2.2.2.1 rfl
  · exact (unknown_and_duplicate_chunks 4000 56 100 0
      { WalkState.init with oid_lookup_offset := some 56 } SENTINEL_CHUNK_ID
      (by decide) (by decide)).2.2.2.2.2 rfl

/-- When the sentinel is in place and the three required chunks were found
(and `BASE` when declared), `post_walk` reduces to the two commit-count
checks around `fan[255]`. -/
theorem post_walk_found (data : Bytes) (bgc : Nat) (st : WalkState) (fo lo co : Nat)
    (hf : st.fan_offset = some fo) (hl : st.oid_lookup_offset = some lo)
    (hc : st.commit_data_offset = some co)
    (hb : ¬ (0 < bgc ∧ st.base_graphs_list_offset = none)) :
    post_walk data bgc SENTINEL_CHUNK_ID st =
      (if st.oid_lookup_count ≠ ((read_fan (data.drop fo)).1).getD 255 0 then
        .error (.CommitCountMismatch OID_FAN_CHUNK_ID
          (((read_fan (data.drop fo)).1).getD 255 0) OID_LOOKUP_CHUNK_ID
          st.oid_lookup_count)
      else if st.commit_data_count ≠ ((read_fan (data.drop fo)).1).getD 255 0 then
        .error (.CommitCountMismatch OID_FAN_CHUNK_ID
          (((read_fan (data.drop fo)).1).getD 255 0) COMMIT_DATA_CHUNK_ID
          st.commit_data_count)
      else .ok { base_graph_count := bgc
                 base_graphs_list_offset := st.base_graphs_list_offset
                 commit_data_offset := co
                 data := data
                 extra_edges_list_range := st.extra_edges_list_range
                 fan := (read_fan (data.drop fo)).1
                 oid_lookup_offset := lo }) := by
  simp [post_walk, hf, hl, hc, hb]

/-- Claim C1: past header, chunk-directory and chunk-presence validation,
construction succeeds exactly when the recorded `OIDL` and `CDAT` entry
counts both equal `fan[255]`; a disagreeing `OIDL` count fails with
`CommitCountMismatch (OIDF, fan255, OIDL, count)`, and with the `OIDL` count
agreeing a disagreeing `CDAT` count fails with
`CommitCountMismatch (OIDF, fan255, CDAT, count)`. The last two conjuncts
identify the recorded counts with the chunk sizes: the walk stores
`size / 20` entries for `OIDL` and `size / 36` for `CDAT` (the bounds
`< 2 ^ 32` make the source's `usize`-to-`u32` cast the identity). -/
theorem commit_count_checks (data : Bytes) (bgc : Nat) (st : WalkState) (fo lo co : Nat)
    (hf : st.fan_offset = some fo) (hl : st.oid_lookup_offset = some lo)
    (hc : st.commit_data_offset = some co)
    (hb : ¬ (0 < bgc ∧ st.base_graphs_list_offset = none)) :
    ((∃ f, post_walk data bgc SENTINEL_CHUNK_ID st = .ok f) ↔
       (st.oid_lookup_count = ((read_fan (data.drop fo)).1).getD 255 0 ∧
        st.commit_data_count = ((read_fan (data.drop fo)).1).getD 255 0))
  ∧ (st.oid_lookup_count ≠ ((read_fan (data.drop fo)).1).getD 255 0 →
       post_walk data bgc SENTINEL_CHUNK_ID st =
         .error (.CommitCountMismatch OID_FAN_CHUNK_ID
           (((read_fan (data.drop fo)).1).getD 255 0) OID_LOOKUP_CHUNK_ID
           st.oid_lookup_count))
  ∧ (st.oid_lookup_count = ((read_fan (data.drop fo)).1).getD 255 0 →
       st.commit_data_count ≠ ((read_fan (data.drop fo)).1).getD 255 0 →
       post_walk data bgc SENTINEL_CHUNK_ID st =
         .error (.CommitCountMismatch OID_FAN_CHUNK_ID
           (((read_fan (data.drop fo)).1).getD 255 0) COMMIT_DATA_CHUNK_ID
           st.commit_data_count))
  ∧ (∀ ds prev next st', st'.oid_lookup_offset = none → prev ≤ next → next < ds →
       (next - prev) % OID_LOOKUP_ENTRY_SIZE = 0 →
       (next - prev) / OID_LOOKUP_ENTRY_SIZE < 2 ^ 32 →
       process_chunk ds OID_LOOKUP_CHUNK_ID prev next bgc st' =
         .ok { st' with
           oid_lookup_offset := some prev
           oid_lookup_count := (next - prev) / OID_LOOKUP_ENTRY_SIZE })
  ∧ (∀ ds prev next st', st'.commit_data_offset = none → prev ≤ next → next < ds →
       (next - prev) % COMMIT_DATA_ENTRY_SIZE = 0 →
       (next - prev) / COMMIT_DATA_ENTRY_SIZE < 2 ^ 32 →
       process_chunk ds COMMIT_DATA_CHUNK_ID prev next bgc st' =
         .ok { st' with
           commit_data_offset := some prev
           commit_data_count := (next - prev) / COMMIT_DATA_ENTRY_SIZE }) := by
  have hfound := post_walk_found data bgc st fo lo co hf hl hc hb
  refine ⟨⟨fun hok => ?_, fun hcnt => ?_⟩, fun h1 => ?_, fun h1 h2 => ?_,
    fun ds prev next st' h1 h2 h3 h4 h5 => ?_, fun ds prev next st' h1 h2 h3 h4 h5 => ?_⟩
  · obtain ⟨f, hok⟩ := hok
    rw [hfound] at hok
    by_cases c1 : st.oid_lookup_count ≠ ((read_fan (data.drop fo)).1).getD 255 0
    · rw [if_pos c1] at hok
      exact absurd hok (by simp)
    by_cases c2 : st.commit_data_count ≠ ((read_fan (data.drop fo)).1).getD 255 0
    · rw [if_neg c1, if_pos c2] at hok
      exact absurd hok (by simp)
    exact ⟨not_not.mp c1, not_not.mp c2⟩
  · rw [hfound, if_neg (not_not_intro hcnt.1), if_neg (not_not_intro hcnt.2)]
    exact ⟨_, rfl⟩
  · rw [hfound, if_pos h1]
  · rw [hfound, if_neg (not_not_intro h1), if_pos h2]
  · exact (chunk_size_constraints ds prev next bgc st' h2 h3).2.2.2.1 h1 h4 h5
  · exact (chunk_size_constraints ds prev next bgc st' h2 h3).2.2.2.2.2.1 h1 h4 h5

/-- Witness for C1 at concrete states: with `fan[255] = 0` over empty data,
equal counts 0 succeed, an `OIDL` count of 2 raises the first mismatch, a
`CDAT` count of 3 raises the second, and the two `process_chunk` runs record
counts 2 and 2 for 40-byte `OIDL` and 72-byte `CDAT` chunks. -/
theorem commit_count_checks_witness :
    ((∃ f, post_walk [] 0 SENTINEL_CHUNK_ID
        { WalkState.init with
          fan_offset := some 56
          oid_lookup_offset := some 1080
          commit_data_offset := some 1080 } = .ok f) ↔ (0 = 0 ∧ 0 = 0))
  ∧ post_walk [] 0 SENTINEL_CHUNK_ID
      { WalkState.init with
        fan_offset := some 56
        oid_lookup_offset := some 1080
        commit_data_offset := some 1080
        oid_lookup_count := 2 } =
      .error (.CommitCountMismatch OID_FAN_CHUNK_ID 0 OID_LOOKUP_CHUNK_ID 2)
  ∧ post_walk [] 0 SENTINEL_CHUNK_ID
      { WalkState.init with
        fan_offset := some 56
        oid_lookup_offset := some 1080
        commit_data_offset := some 1080
        commit_data_count := 3 } =
      .error (.CommitCountMismatch OID_FAN_CHUNK_ID 0 COMMIT_DATA_CHUNK_ID 3)
  ∧ process_chunk 4000 OID_LOOKUP_CHUNK_ID 56 96 0 WalkState.init =
      .ok { WalkState.init with
        oid_lookup_offset := some 56
        oid_lookup_count := 2 }
  ∧ process_chunk 4000 COMMIT_DATA_CHUNK_ID 56 128 0 WalkState.init =
      .ok { WalkState.init with
        commit_data_offset := some 56
        commit_data_count := 2 } := by
  have e0 : ((read_fan (([] : Bytes).drop 56)).1).getD 255 0 = 0 := by decide
  refine ⟨?_, ?_, ?_, ?_, ?_⟩
  · have h := (commit_count_checks [] 0
      { WalkState.init with
        fan_offset := some 56
        oid_lookup_offset := some 1080
        commit_data_offset := some 1080 } 56 1080 1080 rfl rfl rfl (by simp)).1
    rw [e0] at h
    exact h
  · exact (commit_count_checks [] 0 _ 56 1080 1080 rfl rfl rfl (by simp)).2.1 (by decide)
  · exact (commit_count_checks [] 0 _ 56 1080 1080 rfl rfl rfl (by simp)).2.2.1
      (by decide) (by decide)
  · exact (commit_count_checks [] 0
      { WalkState.init with
        fan_offset := some 56
        oid_lookup_offset := some 1080
        commit_data_offset := some 1080 } 56 1080 1080 rfl rfl rfl
      (by simp)).2.2.2.1 4000 56 96 WalkState.init rfl (by decide) (by decide)
      (by decide) (by decide)
  · exact (commit_count_checks [] 0
      { WalkState.init with
        fan_offset := some 56
        oid_lookup_offset := some 1080
        commit_data_offset := some 1080 } 56 1080 1080 rfl rfl rfl
      (by simp)).2.2.2.2 4000 56 128 WalkState.init rfl (by decide) (by decide)
      (by decide) (by decide)

set_option maxRecDepth 1000000 in
set_option maxHeartbeats 2000000 in
/-- Claim C2 (counterexample to the claim as stated): in `c2data` the chunk
data ends exactly at end of file (sentinel offset 1080 = file length), so no
chunk extends past end of file, yet `try_from` rejects the file with the
offset-derived `InvalidChunkSize` error; adding one trailing byte, which
changes no offset, makes the same file open successfully. -/
theorem chunk_end_at_eof_rejected :
    c2data.length = 1080
  ∧ read_u64 c2data 48 = 1080
  ∧ try_from c2data =
      .error (.InvalidChunkSize OID_FAN_CHUNK_ID "chunk extends beyond end of file")
  ∧ (try_from (c2data ++ [0])).isOk = true := by
  refine ⟨by decide, by decide, by decide, by decide⟩

/-- Claim C2 as amended: during the walk, a directory entry whose offset is
smaller than the previous entry's offset fails with
`InvalidChunkSize (id, "size is negative")`; otherwise an offset at or past
the file size — including a sentinel offset equal to the file size, i.e.
chunk data ending exactly at end of file — fails with
`InvalidChunkSize (id, "chunk extends beyond end of file")`; only an offset
strictly below the file size proceeds to the size dispatch. -/
theorem offset_checks (data_size : Nat) (id : ChunkId) (prev next bgc : Nat)
    (st : WalkState) :
    (next < prev →
       process_chunk data_size id prev next bgc st =
         .error (.InvalidChunkSize id "size is negative"))
  ∧ (prev ≤ next → data_size ≤ next →
       process_chunk data_size id prev next bgc st =
         .error (.InvalidChunkSize id "chunk extends beyond end of file"))
  ∧ (prev ≤ next → next < data_size →
       process_chunk data_size id prev next bgc st =
         dispatch_chunk id (next - prev) prev next bgc st) := by
  refine ⟨fun h1 => by simp [process_chunk, h1], fun h1 h2 => ?_, fun h1 h2 => ?_⟩
  · have hm : ¬ next < prev := by omega
    simp [process_chunk, hm, h2]
  · have hm : ¬ next < prev := by omega
    have hb : ¬ data_size ≤ next := by omega
    simp [process_chunk, hm, hb]

/-- Witness for the amended C2 at concrete inputs: offset 50 after 56 has
negative size; offset 1080 in a 1080-byte file is rejected at end of file;
offset 1080 in a 1081-byte file proceeds to the dispatch. -/
theorem offset_checks_witness :
    process_chunk 1080 OID_FAN_CHUNK_ID 56 50 0 WalkState.init =
      .error (.InvalidChunkSize OID_FAN_CHUNK_ID "size is negative")
  ∧ process_chunk 1080 OID_FAN_CHUNK_ID 56 1080 0 WalkState.init =
      .error (.InvalidChunkSize OID_FAN_CHUNK_ID "chunk extends beyond end of file")
  ∧ process_chunk 1081 OID_FAN_CHUNK_ID 56 1080 0 WalkState.init =
      dispatch_chunk OID_FAN_CHUNK_ID 1024 56 1080 0 WalkState.init := by
  refine ⟨?_, ?_, ?_⟩
  · exact (offset_checks 1080 OID_FAN_CHUNK_ID 56 50 0 WalkState.init).1 (by decide)
  · exact (offset_checks 1080 OID_FAN_CHUNK_ID 56 1080 0 WalkState.init).2.1
      (by decide) (by decide)
  · exact (offset_checks 1081 OID_FAN_CHUNK_ID 56 1080 0 WalkState.init).2.2
      (by decide) (by decide)

/-- Every `File` built by `post_walk` carries the 256-entry fan read from
the recorded fan offset. -/
theorem post_walk_ok_fan_length (data : Bytes) (bgc : Nat) (cid : ChunkId)
    (st : WalkState) (f : File) (h : post_walk data bgc cid st = .ok f) :
    f.fan.length = FAN_LEN := by
  simp only [post_walk] at h
  split at h
  · simp at h
  split at h
  · simp at h
  split at h
  · simp at h
  split at h
  · simp at h
  split at h
  · simp at h
  split at h
  · simp at h
  split at h
  · simp at h
  injection h with h
  subst h
  simp [read_fan]

/-- Every `File` returned by `try_from` carries a 256-entry fan. -/
theorem try_from_ok_fan_length (data : Bytes) (f : File) (h : try_from data = .ok f) :
    f.fan.length = FAN_LEN := by
  simp only [try_from] at h
  split at h
  · simp at h
  split at h
  · simp at h
  split at h
  · simp at h
  split at h
  · simp at h
  split at h
  · simp at h
  split at h
  · simp at h
  split at h
  · simp at h
  exact post_walk_ok_fan_length _ _ _ _ _ h

set_option maxRecDepth 1000000 in
set_option maxHeartbeats 2000000 in
/-- Claim C3 (counterexample to the claim as stated): `try_from` opens
`c3data` even though its fan table is not monotonically non-decreasing:
`fan[0] = 1 > 0 = fan[255]` with `0 < 255 < 256`. -/
theorem fan_monotonicity_counterexample :
    (try_from c3data).isOk = true
  ∧ (opened_fan c3data).getD 0 0 = 1
  ∧ (opened_fan c3data).getD 255 0 = 0
  ∧ ¬ (opened_fan c3data).getD 0 0 ≤ (opened_fan c3data).getD 255 0 := by
  refine ⟨by decide, by decide, by decide, by decide⟩

set_option maxRecDepth 1000000 in
set_option maxHeartbeats 2000000 in
/-- Claim C3 as amended: `try_from` does not check fan monotonicity. Every
opened `File` has a 256-entry fan whose entry 255 is validated against the
`OIDL` and `CDAT` counts, but a file whose fan is non-monotonic — such as
`c3data`, with `fan[0] > fan[255]` — is still opened successfully. -/
theorem fan_monotonicity_not_enforced :
    (∀ data f, try_from data = .ok f → f.fan.length = FAN_LEN)
  ∧ (∃ data f, try_from data = .ok f ∧
       ¬ ∀ i j, i < j → j < FAN_LEN → f.fan.getD i 0 ≤ f.fan.getD j 0) := by
  refine ⟨try_from_ok_fan_length, ?_⟩
  cases hok : try_from c3data with
  | error e =>
    have hh : (try_from c3data).isOk = true := by decide
    rw [hok] at hh
    simp [Except.isOk, Except.toBool] at hh
  | ok f =>
    refine ⟨c3data, f, hok, fun hmono => ?_⟩
    have h01 := hmono 0 255 (by decide) (by decide)
    have h0 : f.fan.getD 0 0 = (opened_fan c3data).getD 0 0 := by
      simp only [opened_fan, hok]
    have h255 : f.fan.getD 255 0 = (opened_fan c3data).getD 255 0 := by
      simp only [opened_fan, hok]
    rw [h0, h255] at h01
    have hv : ¬ (opened_fan c3data).getD 0 0 ≤ (opened_fan c3data).getD 255 0 := by
      decide
    exact hv h01

set_option maxRecDepth 1000000 in
set_option maxHeartbeats 2000000 in
/-- Witness for the amended C3 at a concrete input: the file opened from
`c3data` has a 256-entry fan. -/
theorem fan_monotonicity_not_enforced_witness : (opened_fan c3data).length = FAN_LEN := by
  cases hok : try_from c3data with
  | error e =>
    have hh : (try_from c3data).isOk = true := by decide
    rw [hok] at hh
    simp [Except.isOk, Except.toBool] at hh
  | ok f =>
    simp only [opened_fan, hok]
    exact fan_monotonicity_not_enforced.1 c3data f hok

set_option maxRecDepth 1000000 in
set_option maxHeartbeats 2000000 in
/-- Claim C9: `try_from` performs no validation of the `EDGE` chunk's
content. The walk step for `EDGE` records the chunk's byte range without
reading any byte of it (the first conjunct holds for every state and pair of
in-bounds offsets), and the concrete file `c9data`, whose single extra-edges
word `5` lacks the top terminator bit (`read_u32` at its last word is below
`2 ^ 31`), is opened successfully. -/
theorem edge_content_not_validated :
    (∀ data_size prev next bgc st, st.extra_edges_list_range = none →
       prev ≤ next → next < data_size →
       process_chunk data_size EXTENDED_EDGES_LIST_CHUNK_ID prev next bgc st =
         .ok { st with extra_edges_list_range := some (prev, next) })
  ∧ (try_from c9data).isOk = true
  ∧ opened_extra_edges c9data = some (1092, 1096)
  ∧ read_u32 c9data 1092 = 5
  ∧ read_u32 c9data 1092 < 2 ^ 31 := by
  refine ⟨fun data_size prev next bgc st h1 h2 h3 => ?_, by decide, by decide,
    by decide, by decide⟩
  exact (chunk_size_constraints data_size prev next bgc st h2 h3).2.2.2.2.2.2.2.2.2 h1

/-- Witness for C9 at concrete inputs: an `EDGE` chunk from 56 to 60 in an
imagined 100-byte file is recorded as a range on the empty state without
error. -/
theorem edge_content_not_validated_witness :
    process_chunk 100 EXTENDED_EDGES_LIST_CHUNK_ID 56 60 0 WalkState.init =
      .ok { WalkState.init with extra_edges_list_range := some (56, 60) } :=
  edge_content_not_validated.1 100 56 60 0 WalkState.init rfl (by decide) (by decide)

/-- An in-range `get?` agrees with the 0-defaulting `byteAt`. -/
theorem get?_eq_some_byteAt (d : Bytes) (i : Nat) (h : i < d.length) :
    d.get? i = some (byteAt d i) := by
  rw [byteAt, List.getD_eq_get?]
  cases hg : d.get? i with
  | none => exact absurd (List.get?_eq_none.mp hg) (by omega)
  | some a => rfl

/-- An in-range checked `u32` read agrees with the total one. -/
theorem read_u32Checked_eq (d : Bytes) (ofs : Nat) (h : ofs + 4 ≤ d.length) :
    read_u32Checked d ofs = some (read_u32 d ofs) := by
  rw [read_u32Checked, get?_eq_some_byteAt d ofs (by omega),
    get?_eq_some_byteAt d (ofs + 1) (by omega), get?_eq_some_byteAt d (ofs + 2) (by omega),
    get?_eq_some_byteAt d (ofs + 3) (by omega)]
  rfl

/-- An in-range checked `u64` read agrees with the total one. -/
theorem read_u64Checked_eq (d : Bytes) (ofs : Nat) (h : ofs + 8 ≤ d.length) :
    read_u64Checked d ofs = some (read_u64 d ofs) := by
  rw [read_u64Checked, get?_eq_some_byteAt d ofs (by omega),
    get?_eq_some_byteAt d (ofs + 1) (by omega), get?_eq_some_byteAt d (ofs + 2) (by omega),
    get?_eq_some_byteAt d (ofs + 3) (by omega), get?_eq_some_byteAt d (ofs + 4) (by omega),
    get?_eq_some_byteAt d (ofs + 5) (by omega), get?_eq_some_byteAt d (ofs + 6) (by omega),
    get?_eq_some_byteAt d (ofs + 7) (by omega)]
  rfl

/-- An in-range checked chunk-id read agrees with the total one. -/
theorem read_chunk_idChecked_eq (d : Bytes) (ofs : Nat) (h : ofs + 4 ≤ d.length) :
    read_chunk_idChecked d ofs = some (read_chunk_id d ofs) := by
  rw [read_chunk_idChecked, get?_eq_some_byteAt d ofs (by omega),
    get?_eq_some_byteAt d (ofs + 1) (by omega), get?_eq_some_byteAt d (ofs + 2) (by omega),
    get?_eq_some_byteAt d (ofs + 3) (by omega)]
  rfl

/-- Reading a byte of a dropped prefix reads the shifted index. -/
theorem byteAt_drop (d : Bytes) (k i : Nat) : byteAt (d.drop k) i = byteAt d (k + i) := by
  rw [byteAt, byteAt, List.getD_eq_get?, List.getD_eq_get?, List.get?_drop]

/-- Reading a `u32` of a dropped prefix reads the shifted offset. -/
theorem read_u32_drop (d : Bytes) (k ofs : Nat) :
    read_u32 (d.drop k) ofs = read_u32 d (k + ofs) := by
  simp [read_u32, byteAt_drop, Nat.add_assoc]

/-- With `4 * n` readable bytes, the checked fan fill of `n` entries agrees
with the total `u32` reads at offsets `0, 4, 8, …`. -/
theorem read_fan_go_eq (n : Nat) : ∀ (d : Bytes), 4 * n ≤ d.length →
    read_fan_go d n = some ((List.range n).map fun i => read_u32 d (4 * i)) := by
  induction n with
  | zero => intro d _; simp [read_fan_go]
  | succ n ih =>
    intro d h
    cases d with
    | nil => simp at h
    | cons a t =>
      have h4 : 4 ≤ (a :: t).length := by simp at h ⊢; omega
      have hrec : 4 * n ≤ ((a :: t).drop 4).length := by
        simp [List.length_drop] at h ⊢
        omega
      simp only [read_fan_go, if_pos h4, read_u32Checked_eq (a :: t) 0 (by omega), ih _ hrec]
      rw [List.range_succ_eq_map]
      simp only [List.map_cons, List.map_map]
      refine congrArg some (congrArg₂ List.cons (by norm_num) ?_)
      refine List.map_congr_left fun i _ => ?_
      rw [Function.comp_apply, read_u32_drop]
      congr 1
      omega

/-- The checked `read_fan` agrees with the total one on 1024 readable bytes. -/
theorem read_fanChecked_eq (d : Bytes) (h : 4 * FAN_LEN ≤ d.length) :
    read_fanChecked d = some (read_fan d).1 := by
  rw [read_fanChecked, read_fan_go_eq FAN_LEN d h, read_fan]

/-- A successful walk step preserves the fan bound: the only step that
records a fan offset first checked that the 1024-byte `OIDF` chunk ends
strictly before `data_size`. -/
theorem process_chunk_fan_bounded (data_size : Nat) (cid : ChunkId)
    (prev next bgc : Nat) (st st' : WalkState)
    (h : process_chunk data_size cid prev next bgc st = .ok st')
    (hb : fan_bounded data_size st) : fan_bounded data_size st' := by
  intro fo hfo
  simp only [process_chunk] at h
  split at h
  · simp at h
  split at h
  · simp at h
  rename_i hlt hge
  simp only [dispatch_chunk] at h
  split at h
  · split at h
    · simp at h
    split at h
    · simp at h
    split at h
    · simp at h
    injection h with h
    subst h
    simp only at hfo
    exact hb fo hfo
  split at h
  · split at h
    · simp at h
    split at h
    · simp at h
    injection h with h
    subst h
    simp only at hfo
    exact hb fo hfo
  split at h
  · split at h
    · simp at h
    injection h with h
    subst h
    simp only at hfo
    exact hb fo hfo
  split at h
  · split at h
    · simp at h
    split at h
    · simp at h
    rename_i hsz
    injection h with h
    subst h
    simp only [Option.some.injEq] at hfo
    have hsz' : next - prev = 4 * FAN_LEN := not_not.mp hsz
    omega
  split at h
  · split at h
    · simp at h
    split at h
    · simp at h
    injection h with h
    subst h
    simp only at hfo
    exact hb fo hfo
  · injection h with h
    subst h
    exact hb fo hfo

/-- A successful walk preserves the fan bound. -/
theorem walk_chunks_fan_bounded (data : Bytes) (data_size bgc : Nat) :
    ∀ (n ofs : Nat) (cid : ChunkId) (cofs : Nat) (st : WalkState) (fid : ChunkId)
      (st' : WalkState),
      walk_chunks data data_size bgc n ofs cid cofs st = .ok (fid, st') →
      fan_bounded data_size st → fan_bounded data_size st' := by
  intro n
  induction n with
  | zero =>
    intro ofs cid cofs st fid st' h hb
    simp only [walk_chunks] at h
    injection h with h
    injection h with h1 h2
    subst h2
    exact hb
  | succ n ih =>
    intro ofs cid cofs st fid st' h hb
    simp only [walk_chunks] at h
    cases hp : process_chunk data_size cid cofs (read_u64 data (ofs + 4)) bgc st with
    | error e => rw [hp] at h; simp at h
    | ok st1 =>
      rw [hp] at h
      exact ih _ _ _ st1 fid st' h
        (process_chunk_fan_bounded data_size cid cofs (read_u64 data (ofs + 4)) bgc st st1
          hp hb)

/-- With the whole directory readable, the checked walk agrees with the
total one. -/
theorem walk_chunksChecked_eq (data : Bytes) (data_size bgc : Nat) :
    ∀ (n ofs : Nat) (cid : ChunkId) (cofs : Nat) (st : WalkState),
      ofs + n * CHUNK_LOOKUP_SIZE ≤ data.length →
      walk_chunksChecked data data_size bgc n ofs cid cofs st =
        some (walk_chunks data data_size bgc n ofs cid cofs st) := by
  intro n
  induction n with
  | zero => intro ofs cid cofs st _; rfl
  | succ n ih =>
    intro ofs cid cofs st h
    have hcls : CHUNK_LOOKUP_SIZE = 12 := rfl
    have h12 : ofs + 12 ≤ data.length := by
      rw [hcls] at h
      have : 12 ≤ (n + 1) * 12 := by omega
      omega
    simp only [walk_chunksChecked, walk_chunks,
      read_chunk_idChecked_eq data ofs (by omega),
      read_u64Checked_eq data (ofs + 4) (by omega)]
    cases hp : process_chunk data_size cid cofs (read_u64 data (ofs + 4)) bgc st with
    | error e => rfl
    | ok st1 =>
      exact ih (ofs + CHUNK_LOOKUP_SIZE) _ _ st1 (by rw [hcls] at h ⊢; omega)

/-- With the fan bound in hand, the checked post-walk phase agrees with the
total one. -/
theorem post_walkChecked_eq (data : Bytes) (bgc : Nat) (cid : ChunkId) (st : WalkState)
    (hb : fan_bounded data.length st) :
    post_walkChecked data bgc cid st = some (post_walk data bgc cid st) := by
  by_cases hs : cid ≠ SENTINEL_CHUNK_ID
  · simp [post_walkChecked, post_walk, hs]
  cases hf : st.fan_offset with
  | none => simp [post_walkChecked, post_walk, hs, hf]
  | some fo =>
    cases ho : st.oid_lookup_offset with
    | none => simp [post_walkChecked, post_walk, hs, hf, ho]
    | some lo =>
      cases hc : st.commit_data_offset with
      | none => simp [post_walkChecked, post_walk, hs, hf, ho, hc]
      | some co =>
        have hfan := read_fanChecked_eq (data.drop fo) (by
          have := hb fo hf
          rw [List.length_drop]
          omega)
        by_cases hbase : 0 < bgc ∧ st.base_graphs_list_offset = none
        · simp [post_walkChecked, post_walk, hs, hf, ho, hc, hbase]
        · simp [post_walkChecked, post_walk, hs, hf, ho, hc, hbase, hfan]
          split
          · split
            · rfl
            · rfl
          · rfl

/-- Claim C10: parsing is total and reads no byte out of bounds. The checked
parser `try_fromChecked`, in which every byte access is bounds-checked and an
out-of-range access (the model of a panic) is the distinguished `none`,
agrees with `try_from` on every input: the minimum-size check guards the
header reads, the directory bound guards every 12-byte entry read, and the
walk records a fan offset only with the size-checked 1024-byte `OIDF` chunk
strictly inside the buffer, which guards the fan read. -/
theorem parsing_total (data : Bytes) : try_fromChecked data = some (try_from data) := by
  by_cases hmin : data.length < MIN_FILE_SIZE
  · simp [try_fromChecked, try_from, hmin]
  have h56 : MIN_FILE_SIZE = 56 := rfl
  have h8 : HEADER_LEN = 8 := rfl
  have hcls : CHUNK_LOOKUP_SIZE = 12 := rfl
  have hsig := read_chunk_idChecked_eq data 0 (by omega)
  have hb4 := get?_eq_some_byteAt data 4 (by omega)
  have hb5 := get?_eq_some_byteAt data 5 (by omega)
  have hb6 := get?_eq_some_byteAt data 6 (by omega)
  have hb7 := get?_eq_some_byteAt data 7 (by omega)
  have hid8 := read_chunk_idChecked_eq data HEADER_LEN (by omega)
  have hu64 := read_u64Checked_eq data (HEADER_LEN + 4) (by omega)
  simp only [try_fromChecked, try_from, if_neg hmin, hsig, hb4, hb5, hb6, hb7, hid8, hu64]
  by_cases hsg : read_chunk_id data 0 ≠ SIGNATURE
  · simp [hsg]
  simp only [if_neg hsg]
  by_cases hv : byteAt data 4 ≠ 1
  · simp [hv]
  simp only [if_neg hv]
  by_cases hhv : byteAt data 5 ≠ 1
  · simp [hhv]
  simp only [if_neg hhv]
  by_cases hcl : data.length < HEADER_LEN + (byteAt data 6 + 1) * CHUNK_LOOKUP_SIZE
  · simp [hcl]
  simp only [if_neg hcl]
  by_cases hofs : read_u64 data (HEADER_LEN + 4) <
      HEADER_LEN + (byteAt data 6 + 1) * CHUNK_LOOKUP_SIZE
  · simp [hofs]
  simp only [if_neg hofs]
  rw [walk_chunksChecked_eq data data.length (byteAt data 7) (byteAt data 6)
    (HEADER_LEN + CHUNK_LOOKUP_SIZE) (read_chunk_id data HEADER_LEN)
    (read_u64 data (HEADER_LEN + 4)) WalkState.init (by rw [h8, hcls] at hcl ⊢; omega)]
  cases hw : walk_chunks data data.length (byteAt data 7) (byteAt data 6)
      (HEADER_LEN + CHUNK_LOOKUP_SIZE) (read_chunk_id data HEADER_LEN)
      (read_u64 data (HEADER_LEN + 4)) WalkState.init with
  | error e => rfl
  | ok p =>
    obtain ⟨fid, st⟩ := p
    have hbst : fan_bounded data.length st :=
      walk_chunks_fan_bounded data data.length (byteAt data 7) (byteAt data 6)
        (HEADER_LEN + CHUNK_LOOKUP_SIZE) (read_chunk_id data HEADER_LEN)
        (read_u64 data (HEADER_LEN + 4)) WalkState.init fid st hw
        (fun fo hfo => by simp [WalkState.init] at hfo)
    exact post_walkChecked_eq data (byteAt data 7) fid st hbst

end CommitGraph
